import Mathlib

/-!
Shallow embedding of the Sublime Text PHP_CBF plugin (src/phpcbf.py).

Strings are modelled as lists of characters (PyStr) so that every
operation the plugin performs on text (splitlines, replace, basename,
startswith, endswith) is an executable Lean function with the Python
semantics. Settings values are modelled by the inductive SettingVal,
which also carries the Python truthiness used by the plugin in several
conditions. The Sublime view is reduced to the two pieces of state the
plugin reads and writes: the full buffer text and the phpcbf_is_saving
flag stored in the view settings.
-/

namespace PHPCBF

/-- Python strings, as lists of characters. -/
abbrev PyStr := List Char

/-- The line-boundary characters recognised by the Python str.splitlines
method (besides the two-character boundary CR LF, handled separately). -/
def isLineBoundary (c : Char) : Bool :=
  c == '\n' || c == '\r' || c == '\x0b' || c == '\x0c' ||
  c == '\x1c' || c == '\x1d' || c == '\x1e' || c == '\u0085' ||
  c == '\u2028' || c == '\u2029'

/-- Worker for splitlines: scans the text, accumulating the current line
in reverse. A CR LF pair is one boundary; a trailing segment without a
terminator still forms a final line; the empty text has no lines. -/
def splitlinesGo : List Char → List Char → List PyStr
  | [], acc => if acc.isEmpty then [] else [acc.reverse]
  | '\r' :: '\n' :: rest, acc => acc.reverse :: splitlinesGo rest []
  | c :: rest, acc =>
    if isLineBoundary c then acc.reverse :: splitlinesGo rest []
    else splitlinesGo rest (c :: acc)

/-- Python str.splitlines with keepends absent: the list of lines, with
no line terminators kept. -/
def splitlines (s : PyStr) : List PyStr := splitlinesGo s []

/-- Worker for strReplace: scans the text left to right; the counter is
the number of characters of a matched occurrence still to skip before
matching may resume. -/
def strReplaceGo (old new : PyStr) : Nat → PyStr → PyStr
  | _, [] => []
  | 0, c :: rest =>
    if old.isPrefixOf (c :: rest) then new ++ strReplaceGo old new (old.length - 1) rest
    else c :: strReplaceGo old new 0 rest
  | skip + 1, _ :: rest => strReplaceGo old new skip rest

/-- Python str.replace for a non-empty pattern: replaces every
non-overlapping occurrence of old by new, scanning left to right (the
worker carries the count of characters of a matched occurrence still to
be skipped). The plugin only ever calls it with the literal pattern
token for the folder placeholder, which is non-empty, so the
empty-pattern case is never exercised. -/
def strReplace (old new : PyStr) (s : PyStr) : PyStr :=
  strReplaceGo old new 0 s

/-- The placeholder token substituted with the first project folder. -/
def folderToken : PyStr := "${folder}".data

/-- Python os.path.basename on a posix path: the part after the last
path separator (a path ending in a separator has an empty basename). -/
def basename (p : PyStr) : PyStr :=
  (p.reverse.takeWhile (fun c => !(c == '/'))).reverse

/-- Python pathlib Path(p).name: the final path component, with trailing
separators ignored (so the name of a directory path with a trailing
separator is the directory, and the root path has an empty name). -/
def pathName (p : PyStr) : PyStr :=
  ((p.reverse.dropWhile (fun c => c == '/')).takeWhile (fun c => !(c == '/'))).reverse

/-- Python newline-join of a list of lines, as used on the diff lines. -/
def joinLines : List PyStr → PyStr
  | [] => []
  | [l] => l
  | l :: ls => l ++ '\n' :: joinLines ls

/-- First-match lookup in an association list, the model of a Python
dict keyed by strings (Python dict keys are unique, so first match is
the dict lookup). -/
def assocFind {A : Type} : List (PyStr × A) → PyStr → Option A
  | [], _ => none
  | (k, v) :: rest, key => if k = key then some v else assocFind rest key

/-- A Sublime settings value, restricted to the shapes the plugin reads:
strings, string-keyed string dicts (the phpcs_standard mapping), string
lists (additional_args), booleans, and None for an absent value. -/
inductive SettingVal where
  | vstr (s : PyStr)
  | vdict (m : List (PyStr × PyStr))
  | vlist (l : List PyStr)
  | vbool (b : Bool)
  | vnone
deriving DecidableEq

/-- Python truthiness of a settings value: non-empty string, non-empty
dict, non-empty list, True; None is falsy. -/
def truthy : SettingVal → Bool
  | .vstr s => !s.isEmpty
  | .vdict m => !m.isEmpty
  | .vlist l => !l.isEmpty
  | .vbool b => b
  | .vnone => false

/-- Projection to the Optional str annotation of the php_path and
phpcbf_path accessors: a string value or nothing. -/
def asStr : SettingVal → Option PyStr
  | .vstr s => some s
  | _ => none

/-- Projection to the str-list annotation of additional_args. -/
def asStrList : SettingVal → List PyStr
  | .vlist l => l
  | _ => []

/-- SettingsManager state: the PHP_CBF override bag on the active view
settings (absent when there is no active view or no bag), and the global
settings of the plugin settings file. -/
structure SettingsManager where
  view_php_cbf : Option (List (PyStr × SettingVal))
  global_settings : List (PyStr × SettingVal)
deriving DecidableEq

/-- SettingsManager.get: if the active view carries a truthy PHP_CBF
bag containing the key, that value wins; otherwise the global settings
value, with the given default when the key is absent there too. -/
def SettingsManager.get (sm : SettingsManager) (key : PyStr) (default : SettingVal) : SettingVal :=
  match sm.view_php_cbf with
  | some bag =>
    if bag.isEmpty = false ∧ (assocFind bag key).isSome = true then
      (assocFind bag key).getD default
    else
      (assocFind sm.global_settings key).getD default
  | none => (assocFind sm.global_settings key).getD default

/-- SettingsManager.php_path: the interpreter path, default None. -/
def SettingsManager.php_path (sm : SettingsManager) : Option PyStr :=
  asStr (sm.get "php_path".data .vnone)

/-- SettingsManager.phpcbf_path: the formatter path, default None. -/
def SettingsManager.phpcbf_path (sm : SettingsManager) : Option PyStr :=
  asStr (sm.get "phpcbf_path".data .vnone)

/-- SettingsManager.phpcs_standard: the coding standard configuration,
a string or a folder-keyed mapping, with the string default PSR2. -/
def SettingsManager.phpcs_standard (sm : SettingsManager) : SettingVal :=
  sm.get "phpcs_standard".data (.vstr "PSR2".data)

/-- SettingsManager.additional_args: extra argv entries, default empty. -/
def SettingsManager.additional_args (sm : SettingsManager) : List PyStr :=
  asStrList (sm.get "additional_args".data (.vlist []))

/-- SettingsManager.fix_on_save: whether auto-fix on save is enabled,
default False, used as a truthy condition by the plugin. -/
def SettingsManager.fix_on_save (sm : SettingsManager) : Bool :=
  truthy (sm.get "fix_on_save".data (.vbool false))

/-- CommandBuilder helper iterating the window folders: the mapping
value of the first folder whose final path component is a key. -/
def folder_match (m : List (PyStr × PyStr)) : List PyStr → Option PyStr
  | [] => none
  | folder :: rest =>
    match assocFind m (pathName folder) with
    | some v => some v
    | none => folder_match m rest

/-- CommandBuilder resolve-standard: a string setting is returned
verbatim; a dict setting is resolved by the first matching window
folder, falling back to the reserved default key; any other value
resolves to nothing. -/
def resolve_standard (standard_setting : SettingVal) (folders : List PyStr) : Option PyStr :=
  match standard_setting with
  | .vstr s => some s
  | .vdict m =>
    match folder_match m folders with
    | some v => some v
    | none => assocFind m "_default".data
  | _ => none

/-- CommandBuilder add-php-executable step: append the configured
interpreter path when truthy, else the literal token php, only on the
Windows platform. -/
def add_php_executable (sm : SettingsManager) (is_windows : Bool) (args : List PyStr) : List PyStr :=
  match sm.php_path with
  | some php_path =>
    if php_path.isEmpty = false then args ++ [php_path]
    else if is_windows then args ++ ["php".data] else args
  | none => if is_windows then args ++ ["php".data] else args

/-- CommandBuilder add-phpcbf-path step: append the configured formatter
path, with the folder placeholder replaced by the first window folder,
only when the path is truthy and the window has project folders. -/
def add_phpcbf_path (sm : SettingsManager) (folders : List PyStr) (args : List PyStr) : List PyStr :=
  match sm.phpcbf_path with
  | some phpcbf_path =>
    if phpcbf_path.isEmpty = false ∧ folders.isEmpty = false then
      args ++ [strReplace folderToken (folders.headD []) phpcbf_path]
    else args
  | none => args

/-- CommandBuilder add-coding-standard step: return unchanged when the
setting itself is falsy; otherwise resolve the standard and, only when
the resolved standard is truthy and the window has project folders,
append the standard flag with the placeholder substituted. -/
def add_coding_standard (sm : SettingsManager) (folders : List PyStr) (args : List PyStr) : List PyStr :=
  let standard_setting := sm.phpcs_standard
  if truthy standard_setting = false then args
  else
    match resolve_standard standard_setting folders with
    | some standard =>
      if standard.isEmpty = false ∧ folders.isEmpty = false then
        args ++ ["--standard=".data ++ strReplace folderToken (folders.headD []) standard]
      else args
    | none => args

/-- CommandBuilder build-command: the four conditional steps in order,
then the stdin token, then the extra arguments appended verbatim. The
Windows flag models the os.name nt test; the folder list models the
window project folders. -/
def build_command (sm : SettingsManager) (is_windows : Bool) (folders : List PyStr) : List PyStr :=
  let args : List PyStr := []
  let args := add_php_executable sm is_windows args
  let args := add_phpcbf_path sm folders args
  let args := add_coding_standard sm folders args
  let args := args ++ ["-".data]
  args ++ sm.additional_args

/-- The ExitCode enum of the plugin. -/
inductive ExitCode where
  | SUCCESS
  | FIXES_APPLIED
  | ERROR
deriving DecidableEq

/-- The integer value of each ExitCode member. -/
def ExitCode.value : ExitCode → Int
  | .SUCCESS => 0
  | .FIXES_APPLIED => 1
  | .ERROR => 2

/-- ProcessResult: captured stdout and stderr text and the process exit
code (an arbitrary integer, since a return code can be any value). -/
structure ProcessResult where
  stdout : PyStr
  stderr : PyStr
  exit_code : Int
deriving DecidableEq

/-- ProcessResult.has_error: the exit code is not in the list of the
SUCCESS and FIXES_APPLIED values. -/
def ProcessResult.has_error (r : ProcessResult) : Bool :=
  !([ExitCode.SUCCESS.value, ExitCode.FIXES_APPLIED.value].contains r.exit_code)

/-- Modelled from the spec: the standard unified line diff computed by
the Python difflib library (outside this repository), with the header
labels Original and Fixed and lineterm empty. Only what the plugin
observes of it is kept faithfully: the diff line list is empty exactly
when the two line sequences are equal, and otherwise it starts with the
two non-empty header lines followed by the hunk lines, so the joined
text is non-empty. -/
def unified_diff (a b : List PyStr) : List PyStr :=
  if a = b then []
  else
    "--- Original".data :: "+++ Fixed".data ::
      (a.map (fun l => '-' :: l) ++ b.map (fun l => '+' :: l))

/-- DiffProcessor.create_diff: split both texts into lines, compute the
unified diff, join it with newlines, and return None when the joined
text is empty (the falsy test of the source). -/
def create_diff (original fixed : PyStr) : Option PyStr :=
  let original_lines := splitlines original
  let fixed_lines := splitlines fixed
  let diff := unified_diff original_lines fixed_lines
  let diff_text := joinLines diff
  if diff_text.isEmpty then none else some diff_text

/-- The view state the plugin reads and writes: the full buffer text and
the phpcbf_is_saving flag kept in the view settings (absent models as
false, matching the get default; erase models as setting it false). -/
structure View where
  buffer : PyStr
  phpcbf_is_saving : Bool
deriving DecidableEq

/-- The outcome of one result-processing pass, for stating which branch
was taken. -/
inductive RunOutcome where
  | errored
  | no_changes
  | applied
deriving DecidableEq

/-- PhpCbfApplyChangesCommand.run: replace the region from zero to the
view size, that is the whole buffer, with the given content. -/
def php_cbf_apply_changes (view : View) (content : PyStr) : View :=
  { view with buffer := content }

/-- PHPCBFProcessor process-results: on an error exit code report and
stop; on an empty diff against the original snapshot report no changes
and stop; otherwise apply the formatter stdout to the view and, when
fix-on-save is enabled, set the saving flag before the programmatic
save. Returns the final view state and the branch taken. -/
def process_results (result : ProcessResult) (original_content : PyStr) (view : View) (fix_on_save : Bool) : View × RunOutcome :=
  if result.has_error then (view, .errored)
  else
    match create_diff original_content result.stdout with
    | none => (view, .no_changes)
    | some _ =>
      let view := php_cbf_apply_changes view result.stdout
      if fix_on_save then ({ view with phpcbf_is_saving := true }, .applied)
      else (view, .applied)

/-- PhpCbfEventListener should-auto-fix: requires the fix-on-save
setting, a truthy file name, and a basename that ends with the php
suffix and does not start with a dot (both case-sensitive). -/
def should_auto_fix (sm : SettingsManager) (file_name : Option PyStr) : Bool :=
  if sm.fix_on_save = false then false
  else
    match file_name with
    | none => false
    | some fn =>
      if fn.isEmpty then false
      else
        let filename := basename fn
        (".php".data.isSuffixOf filename) && !(".".data.isPrefixOf filename)

/-- PhpCbfEventListener on-post-save: when the saving flag is set, erase
it and return without starting a run; otherwise the run starts exactly
when should-auto-fix holds. Returns the view state after the handler and
whether a formatting run was started. -/
def on_post_save (sm : SettingsManager) (view : View) (file_name : Option PyStr) : View × Bool :=
  if view.phpcbf_is_saving then ({ view with phpcbf_is_saving := false }, false)
  else (view, should_auto_fix sm file_name)

/-- Specification-side description of the interpreter step of the
command: the configured interpreter path when non-empty, else the
literal token php only on the Windows platform. -/
def specInterpreterArgs (sm : SettingsManager) (is_windows : Bool) : List PyStr :=
  match sm.php_path with
  | some p => if p.isEmpty = false then [p] else if is_windows then ["php".data] else []
  | none => if is_windows then ["php".data] else []

/-- Specification-side description of the formatter-path step of the
command: the configured formatter path with the placeholder substituted
by the first window folder, present only when the path is non-empty and
the window has at least one project folder. -/
def specFormatterArgs (sm : SettingsManager) (folders : List PyStr) : List PyStr :=
  match sm.phpcbf_path with
  | some p =>
    if p.isEmpty = false ∧ folders.isEmpty = false then
      [strReplace folderToken (folders.headD []) p]
    else []
  | none => []

/-- Specification-side description of the coding-standard step of the
command: the standard flag with the placeholder substituted, present
only when the standard setting is truthy, the resolved standard is
non-empty, and the window has at least one project folder. -/
def specStandardArgs (sm : SettingsManager) (folders : List PyStr) : List PyStr :=
  if truthy sm.phpcs_standard = false then []
  else
    match resolve_standard sm.phpcs_standard folders with
    | some standard =>
      if standard.isEmpty = false ∧ folders.isEmpty = false then
        ["--standard=".data ++ strReplace folderToken (folders.headD []) standard]
      else []
    | none => []

/-- Specification-side resolution of a mapping-valued standard, written
exactly as the spec describes it: walk the window folders in order and
return the mapping value of the first folder whose final path component
is a key; when none matches, the value of the reserved default key. -/
def resolveMappingSpec (m : List (PyStr × PyStr)) : List PyStr → Option PyStr
  | [] => assocFind m "_default".data
  | folder :: rest =>
    match assocFind m (pathName folder) with
    | some v => some v
    | none => resolveMappingSpec m rest

/-- Fixture: settings with every key absent, so every default applies. -/
def smPsrOnly : SettingsManager := ⟨none, []⟩

/-- Fixture: settings configuring only a string coding standard. -/
def smCustomStd : SettingsManager :=
  ⟨none, [("phpcs_standard".data, .vstr "CustomStd".data)]⟩

/-- Fixture: settings configuring only a formatter path that carries the
folder placeholder token. -/
def smFolderPath : SettingsManager :=
  ⟨none, [("phpcbf_path".data, .vstr "${folder}/vendor/bin/phpcbf".data)]⟩

/-- Fixture: settings configuring the interpreter, the formatter path, a
string standard and one extra argument. -/
def smFull : SettingsManager :=
  ⟨none,
    [("php_path".data, .vstr "/usr/bin/php".data),
     ("phpcbf_path".data, .vstr "/opt/phpcbf".data),
     ("phpcs_standard".data, .vstr "MyRules".data),
     ("additional_args".data, .vlist ["-q".data])]⟩

/-- Fixture: settings enabling only auto-fix on save. -/
def smFixOnSave : SettingsManager :=
  ⟨none, [("fix_on_save".data, .vbool true)]⟩

/-- Fixture: settings whose coding standard is a mapping with a single
folder key and no default key. -/
def smDictApp : SettingsManager :=
  ⟨none, [("phpcs_standard".data, .vdict [("app".data, "PSR1".data)])]⟩

/-- Lookup in the empty association list yields nothing. -/
theorem assocFind_nil {A : Type} (k : PyStr) : assocFind ([] : List (PyStr × A)) k = none := rfl

/-- Folder matching against the empty mapping yields nothing. -/
theorem folder_match_nil (folders : List PyStr) : folder_match [] folders = none := by
  induction folders with
  | nil => rfl
  | cons f fs ih => simp [folder_match, assocFind, ih]

/-- The specification-side resolution of the empty mapping yields
nothing on every folder list. -/
theorem resolveMappingSpec_nil (folders : List PyStr) : resolveMappingSpec [] folders = none := by
  induction folders with
  | nil => rfl
  | cons f fs ih => simp [resolveMappingSpec, assocFind, ih]

/-- Joining a line list whose first line is non-empty gives a non-empty
text. -/
theorem joinLines_cons_ne_nil (l : PyStr) (ls : List PyStr) (h : l.isEmpty = false) :
    (joinLines (l :: ls)).isEmpty = false := by
  cases ls with
  | nil => simpa [joinLines] using h
  | cons l2 ls2 =>
    cases l with
    | nil => simp [joinLines]
    | cons c cs => simp [joinLines]

/-- The diff of a text against itself is the no-op signal. -/
theorem create_diff_self (s : PyStr) : create_diff s s = none := by
  simp [create_diff, unified_diff, joinLines]

/-- When the two texts split into different line sequences, the diff is
not the no-op signal. -/
theorem create_diff_ne_none (a b : PyStr) (h : splitlines a ≠ splitlines b) :
    create_diff a b ≠ none := by
  have hne := joinLines_cons_ne_nil ("--- Original".data)
    ("+++ Fixed".data ::
      ((splitlines a).map (fun l => '-' :: l) ++ (splitlines b).map (fun l => '+' :: l)))
    (by decide)
  simp [create_diff, unified_diff, h, hne]

/-- The interpreter step appends its segment to the accumulator. -/
theorem add_php_executable_append (sm : SettingsManager) (w : Bool) (args : List PyStr) :
    add_php_executable sm w args = args ++ specInterpreterArgs sm w := by
  unfold add_php_executable specInterpreterArgs
  cases sm.php_path with
  | none => cases w <;> simp
  | some p => cases hp : p.isEmpty <;> cases w <;> simp [hp]

/-- The formatter-path step appends its segment to the accumulator. -/
theorem add_phpcbf_path_append (sm : SettingsManager) (folders : List PyStr) (args : List PyStr) :
    add_phpcbf_path sm folders args = args ++ specFormatterArgs sm folders := by
  unfold add_phpcbf_path specFormatterArgs
  cases sm.phpcbf_path with
  | none => simp
  | some p =>
    dsimp only
    by_cases hc : p.isEmpty = false ∧ folders.isEmpty = false
    · rw [if_pos hc, if_pos hc]
    · rw [if_neg hc, if_neg hc, List.append_nil]

/-- The coding-standard step appends its segment to the accumulator. -/
theorem add_coding_standard_append (sm : SettingsManager) (folders : List PyStr) (args : List PyStr) :
    add_coding_standard sm folders args = args ++ specStandardArgs sm folders := by
  simp only [add_coding_standard, specStandardArgs]
  by_cases ht : truthy sm.phpcs_standard = false
  · rw [if_pos ht, if_pos ht, List.append_nil]
  · rw [if_neg ht, if_neg ht]
    cases hr : resolve_standard sm.phpcs_standard folders with
    | none => dsimp only; rw [List.append_nil]
    | some standard =>
      dsimp only
      by_cases hc : standard.isEmpty = false ∧ folders.isEmpty = false
      · rw [if_pos hc, if_pos hc]
      · rw [if_neg hc, if_neg hc, List.append_nil]

/-- The command is the concatenation of the four conditional segments,
the stdin token, and the extra arguments, in that order. -/
theorem build_command_parts (sm : SettingsManager) (w : Bool) (folders : List PyStr) :
    build_command sm w folders =
      specInterpreterArgs sm w ++ specFormatterArgs sm folders ++
        specStandardArgs sm folders ++ ["-".data] ++ sm.additional_args := by
  simp [build_command, add_php_executable_append, add_phpcbf_path_append,
    add_coding_standard_append, List.append_assoc]

/-- Dict resolution agrees with the specification-side description. -/
theorem resolve_standard_vdict (m : List (PyStr × PyStr)) (folders : List PyStr) :
    resolve_standard (.vdict m) folders = resolveMappingSpec m folders := by
  induction folders with
  | nil => rfl
  | cons f fs ih =>
    cases h : assocFind m (pathName f) with
    | some v => simp [resolve_standard, folder_match, resolveMappingSpec, h]
    | none =>
      simp only [resolve_standard] at ih
      simp [resolve_standard, folder_match, resolveMappingSpec, h, ih]

/-- A standard that resolves to a non-empty value comes from a truthy
standard setting. -/
theorem truthy_of_resolve_some (ss : SettingVal) (folders : List PyStr) (std : PyStr)
    (h1 : resolve_standard ss folders = some std) (h2 : std.isEmpty = false) :
    truthy ss = true := by
  cases ss with
  | vstr s =>
    simp [resolve_standard] at h1
    subst h1
    simpa [truthy] using h2
  | vdict m =>
    cases m with
    | nil =>
      rw [resolve_standard_vdict, resolveMappingSpec_nil] at h1
      exact absurd h1 (by simp)
    | cons p m2 => simp [truthy]
  | vlist l => simp [resolve_standard] at h1
  | vbool b => simp [resolve_standard] at h1
  | vnone => simp [resolve_standard] at h1

/-- When a standard resolves to a non-empty value and the window has a
first folder, the standard segment is exactly the substituted flag. -/
theorem specStandardArgs_of_resolved (sm : SettingsManager) (folder : PyStr)
    (rest : List PyStr) (std : PyStr)
    (h1 : resolve_standard sm.phpcs_standard (folder :: rest) = some std)
    (h2 : std.isEmpty = false) :
    specStandardArgs sm (folder :: rest) =
      ["--standard=".data ++ strReplace folderToken folder std] := by
  have ht := truthy_of_resolve_some _ _ _ h1 h2
  simp [specStandardArgs, ht, h1, h2]

/-- Replacing the placeholder token in the default standard name changes
nothing, since the placeholder does not occur in it. -/
theorem strReplace_psr2 (new : PyStr) : strReplace folderToken new "PSR2".data = "PSR2".data := by
  simp [strReplace, strReplaceGo, folderToken, List.isPrefixOf]

/-- Claim C1 counterexample: with original text a and formatter stdout a
followed by a newline, the stdout differs from the original and the exit
code is zero, yet the diff is line-based so no mutation happens and the
buffer keeps the original text instead of the stdout text. -/
theorem C1_counterexample :
    (⟨"a\n".data, [], 0⟩ : ProcessResult).has_error = false ∧
    (⟨"a\n".data, [], 0⟩ : ProcessResult).stdout ≠ "a".data ∧
    ((process_results ⟨"a\n".data, [], 0⟩ "a".data ⟨"a".data, false⟩ false).1).buffer ≠ "a\n".data ∧
    ((process_results ⟨"a\n".data, [], 0⟩ "a".data ⟨"a".data, false⟩ false).1).buffer = "a".data := by
  decide

/-- Claim C1 (amended): for every non-error run in which the formatter
stdout splits into a line sequence different from that of the original
snapshot (equivalently, the unified diff is non-empty), the buffer after
the run equals exactly the formatter stdout: the mutation is one full
replacement of the entire buffer. -/
theorem C1_full_replacement (r : ProcessResult) (original : PyStr) (v : View) (fos : Bool)
    (he : r.has_error = false) (hd : splitlines original ≠ splitlines r.stdout) :
    ((process_results r original v fos).1).buffer = r.stdout := by
  have hcd : create_diff original r.stdout ≠ none := create_diff_ne_none _ _ hd
  unfold process_results
  cases hc : create_diff original r.stdout with
  | none => exact absurd hc hcd
  | some d =>
    cases fos <;> simp [he, hc, php_cbf_apply_changes]

/-- Witness for claim C1 at a concrete run. -/
theorem C1_witness :
    ((process_results ⟨"b\n".data, [], 1⟩ "a".data ⟨"a".data, false⟩ true).1).buffer = "b\n".data :=
  C1_full_replacement ⟨"b\n".data, [], 1⟩ "a".data ⟨"a".data, false⟩ true (by decide) (by decide)

/-- Claim C2: exit codes zero and one are both classified as non-error;
every other integer exit code is classified as an error, and then the
run leaves the view untouched and takes the errored branch, regardless
of the stdout content. -/
theorem C2_exit_code_taxonomy (r : ProcessResult) (original : PyStr) (v : View) (fos : Bool) :
    (r.has_error = false ↔ r.exit_code = 0 ∨ r.exit_code = 1) ∧
    (r.exit_code ≠ 0 → r.exit_code ≠ 1 →
      process_results r original v fos = (v, RunOutcome.errored)) := by
  constructor
  · simp [ProcessResult.has_error, ExitCode.value, List.contains]
    tauto
  · intro h0 h1
    have he : r.has_error = true := by
      simp [ProcessResult.has_error, ExitCode.value, List.contains, h0, h1]
    simp [process_results, he]

/-- Witness for claim C2 at a concrete run with exit code two. -/
theorem C2_witness :
    process_results ⟨"x".data, [], 2⟩ "y".data ⟨"y".data, false⟩ false =
      (⟨"y".data, false⟩, RunOutcome.errored) :=
  (C2_exit_code_taxonomy ⟨"x".data, [], 2⟩ "y".data ⟨"y".data, false⟩ false).2
    (by decide) (by decide)

/-- Claim C3: whenever the formatter stdout equals the original snapshot
byte for byte, the computed diff is the no-op signal and the view is not
mutated. -/
theorem C3_identical_output_no_op (r : ProcessResult) (original : PyStr) (v : View) (fos : Bool)
    (h : r.stdout = original) :
    create_diff original r.stdout = none ∧ (process_results r original v fos).1 = v := by
  have hcd : create_diff original r.stdout = none := by
    rw [h]
    exact create_diff_self original
  refine ⟨hcd, ?_⟩
  by_cases he : r.has_error = true
  · simp [process_results, he]
  · simp at he
    simp [process_results, he, hcd]

/-- Witness for claim C3 at a concrete run. -/
theorem C3_witness :
    create_diff "z".data "z".data = none ∧
    (process_results ⟨"z".data, [], 1⟩ "z".data ⟨"z".data, false⟩ true).1 = ⟨"z".data, false⟩ :=
  C3_identical_output_no_op ⟨"z".data, [], 1⟩ "z".data ⟨"z".data, false⟩ true (by decide)

/-- Claim C4: for a mapping-valued standard setting, resolution walks
the window folders in order and returns the mapping value of the first
folder whose base name is a key, falling back to the reserved default
key, and yields nothing when that is absent too; and whenever resolution
yields nothing the coding-standard step emits no argument. -/
theorem C4_mapping_standard_resolution (m : List (PyStr × PyStr)) (folders : List PyStr) :
    resolve_standard (.vdict m) folders = resolveMappingSpec m folders ∧
    (resolveMappingSpec m folders = none →
      ∀ (sm : SettingsManager) (args : List PyStr),
        sm.phpcs_standard = .vdict m → add_coding_standard sm folders args = args) := by
  refine ⟨resolve_standard_vdict m folders, ?_⟩
  intro hnone sm args hsm
  unfold add_coding_standard
  by_cases ht : truthy sm.phpcs_standard = false
  · simp [ht]
  · simp [ht, hsm, resolve_standard_vdict, hnone]

/-- Witness for claim C4: a mapping with one key, a window folder whose
base name is not that key, and no default key, so resolution yields
nothing and no standard argument is emitted. -/
theorem C4_witness :
    resolve_standard (.vdict [("app".data, "PSR1".data)]) ["/x/lib".data] =
      resolveMappingSpec [("app".data, "PSR1".data)] ["/x/lib".data] ∧
    add_coding_standard smDictApp ["/x/lib".data] [] = [] :=
  ⟨(C4_mapping_standard_resolution [("app".data, "PSR1".data)] ["/x/lib".data]).1,
    (C4_mapping_standard_resolution [("app".data, "PSR1".data)] ["/x/lib".data]).2
      (by decide) smDictApp [] (by decide)⟩

/-- Claim C5 counterexample: a string standard resolves to a non-empty
value, yet with a window that has no project folders the built command
contains no standard argument at all. -/
theorem C5_counterexample :
    resolve_standard smCustomStd.phpcs_standard [] = some "CustomStd".data ∧
    build_command smCustomStd false [] = ["-".data] ∧
    "--standard=CustomStd".data ∉ build_command smCustomStd false [] := by
  decide

/-- Claim C5 (amended): when a standard resolves to a non-empty value
and the window has at least one project folder, the built command
contains the standard flag with the placeholder substituted by the first
folder; when the window has no project folders the coding-standard step
emits nothing. -/
theorem C5_standard_flag (sm : SettingsManager) (w : Bool) (folder : PyStr)
    (rest : List PyStr) (std : PyStr) (args : List PyStr)
    (h1 : resolve_standard sm.phpcs_standard (folder :: rest) = some std)
    (h2 : std.isEmpty = false) :
    ("--standard=".data ++ strReplace folderToken folder std) ∈
      build_command sm w (folder :: rest) ∧
    add_coding_standard sm [] args = args := by
  constructor
  · rw [build_command_parts, specStandardArgs_of_resolved sm folder rest std h1 h2]
    simp
  · unfold add_coding_standard
    by_cases ht : truthy sm.phpcs_standard = false
    · simp [ht]
    · cases hr : resolve_standard sm.phpcs_standard [] with
      | none => simp [ht, hr]
      | some s => simp [ht, hr]

/-- Witness for claim C5 at a concrete configuration and window. -/
theorem C5_witness :
    ("--standard=".data ++ strReplace folderToken "/p".data "CustomStd".data) ∈
      build_command smCustomStd false ["/p".data] ∧
    add_coding_standard smCustomStd [] ["x".data] = ["x".data] :=
  C5_standard_flag smCustomStd false "/p".data [] "CustomStd".data ["x".data]
    (by decide) (by decide)

/-- Claim C6 counterexample: a formatter path carrying the placeholder
token is configured, the window has no project folders, and the built
command omits the formatter path entirely instead of keeping the literal
token in place. -/
theorem C6_counterexample :
    smFolderPath.phpcbf_path = some "${folder}/vendor/bin/phpcbf".data ∧
    build_command smFolderPath false [] = ["-".data] ∧
    "${folder}/vendor/bin/phpcbf".data ∉ build_command smFolderPath false [] := by
  decide

/-- Claim C6 (amended): when a non-empty formatter path is configured
and the window has at least one project folder, the built command
contains the path with the placeholder token replaced by the first
folder; when the window has no project folders the formatter-path step
emits nothing, so the path is omitted from the command entirely. -/
theorem C6_formatter_path (sm : SettingsManager) (w : Bool) (folder : PyStr)
    (rest : List PyStr) (p : PyStr) (args : List PyStr)
    (hp : sm.phpcbf_path = some p) (hne : p.isEmpty = false) :
    strReplace folderToken folder p ∈ build_command sm w (folder :: rest) ∧
    add_phpcbf_path sm [] args = args := by
  constructor
  · rw [build_command_parts]
    have hseg : specFormatterArgs sm (folder :: rest) = [strReplace folderToken folder p] := by
      simp [specFormatterArgs, hp, hne]
    rw [hseg]
    simp
  · simp [add_phpcbf_path, hp]

/-- Witness for claim C6 at a concrete configuration and window. -/
theorem C6_witness :
    strReplace folderToken "/proj".data "${folder}/vendor/bin/phpcbf".data ∈
      build_command smFolderPath false ["/proj".data] ∧
    add_phpcbf_path smFolderPath [] [] = [] :=
  C6_formatter_path smFolderPath false "/proj".data [] "${folder}/vendor/bin/phpcbf".data []
    (by decide) (by decide)

/-- Claim C7 counterexample: with the interpreter, formatter path, a
string standard and one extra argument all configured but a window with
no project folders, the built command contains neither the formatter
path nor the standard flag, against the stated order conditions. -/
theorem C7_counterexample :
    smFull.phpcbf_path = some "/opt/phpcbf".data ∧
    resolve_standard smFull.phpcs_standard [] = some "MyRules".data ∧
    build_command smFull false [] = ["/usr/bin/php".data, "-".data, "-q".data] ∧
    "/opt/phpcbf".data ∉ build_command smFull false [] ∧
    "--standard=MyRules".data ∉ build_command smFull false [] := by
  decide

/-- Claim C7 (amended): the built command is exactly, in this order: the
interpreter path when configured non-empty (else the literal token php,
only on the Windows platform), then the formatter path when configured
non-empty and the window has at least one project folder (placeholder
substituted), then the standard flag when the standard setting is
truthy, resolves to a non-empty value and the window has at least one
project folder (placeholder substituted), then the literal stdin token,
then each extra argument verbatim in its given order. -/
theorem C7_command_order (sm : SettingsManager) (w : Bool) (folders : List PyStr) :
    build_command sm w folders =
      specInterpreterArgs sm w ++ specFormatterArgs sm folders ++
        specStandardArgs sm folders ++ ["-".data] ++ sm.additional_args :=
  build_command_parts sm w folders

/-- Claim C8: when the saving flag is set on a view, the next save event
observed for it erases the flag and starts no formatting run; and after
any save event the flag is clear, so it is never observed set across two
consecutive save cycles. -/
theorem C8_saving_flag (sm : SettingsManager) (v : View) (fn : Option PyStr)
    (h : v.phpcbf_is_saving = true) :
    on_post_save sm v fn = ({ v with phpcbf_is_saving := false }, false) ∧
    ∀ (sm2 : SettingsManager) (v2 : View) (fn2 : Option PyStr),
      ((on_post_save sm2 v2 fn2).1).phpcbf_is_saving = false := by
  constructor
  · simp [on_post_save, h]
  · intro sm2 v2 fn2
    cases h2 : v2.phpcbf_is_saving <;> simp [on_post_save, h2]

/-- Witness for claim C8 at a concrete view with the flag set. -/
theorem C8_witness :
    on_post_save smPsrOnly ⟨"b".data, true⟩ none = (⟨"b".data, false⟩, false) :=
  (C8_saving_flag smPsrOnly ⟨"b".data, true⟩ none rfl).1

/-- Characterization of the auto-fix filter: it accepts exactly when the
setting is enabled, a file name is present, and its base name has the
php suffix without a leading dot. -/
theorem should_auto_fix_iff (sm : SettingsManager) (fn : Option PyStr) :
    should_auto_fix sm fn = true ↔
      sm.fix_on_save = true ∧
        ∃ n, fn = some n ∧ ".php".data.isSuffixOf (basename n) = true ∧
          ".".data.isPrefixOf (basename n) = false := by
  cases hfix : sm.fix_on_save with
  | false => simp [should_auto_fix, hfix]
  | true =>
    cases fn with
    | none => simp [should_auto_fix, hfix]
    | some n =>
      cases hn : n.isEmpty with
      | true =>
        have hnil : n = [] := by simpa using hn
        subst hnil
        simp [should_auto_fix, hfix, basename, List.isSuffixOf, List.isPrefixOf]
      | false =>
        simp [should_auto_fix, hfix, hn]

/-- Claim C9: with the saving flag clear, a save event starts a run
exactly when auto-fix on save is enabled, the file has a name, and the
base name of that name ends with the php suffix and does not start with
a dot, both matched case-sensitively; in particular a hidden php file
and a file with an upper-case suffix never trigger a run. -/
theorem C9_auto_fix_filter (sm : SettingsManager) (v : View) (fn : Option PyStr)
    (hv : v.phpcbf_is_saving = false) :
    ((on_post_save sm v fn).2 = true ↔
      sm.fix_on_save = true ∧
        ∃ n, fn = some n ∧ ".php".data.isSuffixOf (basename n) = true ∧
          ".".data.isPrefixOf (basename n) = false) ∧
    should_auto_fix sm (some ".hidden.php".data) = false ∧
    should_auto_fix sm (some "Foo.PHP".data) = false := by
  refine ⟨?_, ?_, ?_⟩
  · have hsnd : (on_post_save sm v fn).2 = should_auto_fix sm fn := by
      simp [on_post_save, hv]
    rw [hsnd]
    exact should_auto_fix_iff sm fn
  · cases hfix : sm.fix_on_save <;> (simp only [should_auto_fix, hfix]; decide)
  · cases hfix : sm.fix_on_save <;> (simp only [should_auto_fix, hfix]; decide)

/-- Witness for claim C9 at a concrete save event that triggers a run. -/
theorem C9_witness :
    (on_post_save smFixOnSave ⟨"b".data, false⟩ (some "src/index.php".data)).2 = true :=
  ((C9_auto_fix_filter smFixOnSave ⟨"b".data, false⟩ (some "src/index.php".data) rfl).1).mpr
    ⟨by decide, "src/index.php".data, rfl, by decide, by decide⟩

/-- Claim C10: when neither the view override bag nor the global
settings define the standard key, the resolved standard setting is the
default string PSR2, and the built command contains the PSR2 standard
flag whenever the window has at least one project folder. -/
theorem C10_default_standard (sm : SettingsManager) (w : Bool) (folder : PyStr)
    (rest : List PyStr)
    (hview : ∀ bag, sm.view_php_cbf = some bag → assocFind bag "phpcs_standard".data = none)
    (hglob : assocFind sm.global_settings "phpcs_standard".data = none) :
    sm.phpcs_standard = .vstr "PSR2".data ∧
    "--standard=PSR2".data ∈ build_command sm w (folder :: rest) := by
  have hstd : sm.phpcs_standard = .vstr "PSR2".data := by
    unfold SettingsManager.phpcs_standard SettingsManager.get
    cases hv : sm.view_php_cbf with
    | none => simp [hglob]
    | some bag => simp [hview bag hv, hglob]
  refine ⟨hstd, ?_⟩
  have hresolve : resolve_standard sm.phpcs_standard (folder :: rest) = some "PSR2".data := by
    rw [hstd]
    rfl
  rw [build_command_parts,
    specStandardArgs_of_resolved sm folder rest "PSR2".data hresolve (by decide),
    strReplace_psr2]
  have he : "--standard=".data ++ "PSR2".data = "--standard=PSR2".data := by decide
  rw [he]
  simp

/-- Witness for claim C10 at a concrete empty configuration. -/
theorem C10_witness :
    smPsrOnly.phpcs_standard = SettingVal.vstr "PSR2".data ∧
    "--standard=PSR2".data ∈ build_command smPsrOnly false ["/p".data] :=
  C10_default_standard smPsrOnly false "/p".data []
    (fun bag h => by simp [smPsrOnly] at h) (by decide)

end PHPCBF
